import Mathlib

/-!
Shallow embedding of the core of `src/client/src/App.jsx` (cloud-tco):
the comparison request lifecycle (`handleSubmit`), the catalog loader
(`fetchInstanceTypes`), the derivation helpers (`formatChartData`,
`formatPieData`) and the winner highlight (`isWinner`), together with
theorems settling the specification claims about them.

JS numbers are modelled as `Rat` (all costs in play are finite decimal
values), JS objects whose keys matter in insertion order are modelled as
association lists, and `fetch` outcomes are modelled as explicit sum
types passed to the embedded handlers.
-/

namespace CloudTco

/-- One per-provider cost record of the `results` map of a comparison
payload (`data.compute_cost`, `data.storage_cost`, `data.total_cost`,
`data.instance_type`, `data.region`, `data.hours_running`,
`data.storage_gb` as read by App.jsx). -/
structure ProviderCost where
  instance_type : String
  region : String
  hours_running : Rat
  storage_gb : Rat
  compute_cost : Rat
  storage_cost : Rat
  total_cost : Rat
deriving DecidableEq, Repr

/-- The `comparison` summary object of the payload
(`cheapest_provider`, `cost_breakdown`, `max_savings`,
`percentage_savings` as read by App.jsx lines 360-379). -/
structure ComparisonSummary where
  cheapest_provider : String
  cost_breakdown : List (String × Rat)
  max_savings : Rat
  percentage_savings : Rat
deriving DecidableEq, Repr

/-- The full comparison payload: the `results` object (an insertion
ordered provider -> ProviderCost map, modelled as an association list)
and the `comparison` summary. -/
structure ComparisonResult where
  results : List (String × ProviderCost)
  comparison : ComparisonSummary
deriving DecidableEq, Repr

/-- The component state touched by the request lifecycle:
`loading` (line 18), `error` (line 19), `comparisonData` (line 17).
`instanceTypes` is modelled separately with the catalog loader. -/
structure AppState where
  loading : Bool
  error : Option String
  comparisonData : Option ComparisonResult
deriving DecidableEq, Repr

/-- How the comparison `fetch` of `handleSubmit` settles:
a decodable 2xx body, a non-success HTTP status (`!response.ok`, which
App.jsx turns into `throw new Error('Failed to fetch comparison data')`),
a rejected connection (the runtime's TypeError message), or a body that
`response.json()` fails to parse (the runtime's SyntaxError message). -/
inductive FetchOutcome where
  | ok (payload : ComparisonResult)
  | httpError
  | networkError (message : String)
  | decodeError (message : String)
deriving DecidableEq, Repr

/-- The synchronous prefix of `handleSubmit` (App.jsx lines 55-56),
run before the fetch settles: `setLoading(true); setError(null)`.
`comparisonData` is not touched here. -/
def pendingState (s : AppState) : AppState :=
  { s with loading := true, error := none }

/-- The rest of `handleSubmit` (App.jsx lines 70-82) once the fetch has
settled: on a decodable 2xx body `setComparisonData(data)`; every
failure path lands in the catch block `setError(err.message)`; the
finally block always runs `setLoading(false)`. -/
def settleFetch (s : AppState) : FetchOutcome → AppState
  | .ok payload => { s with comparisonData := some payload, loading := false }
  | .httpError =>
      { s with error := some "Failed to fetch comparison data", loading := false }
  | .networkError message => { s with error := some message, loading := false }
  | .decodeError message => { s with error := some message, loading := false }

/-- A whole run of `handleSubmit` (App.jsx lines 53-83): the synchronous
prefix followed by the settling of the single fetch it issues. -/
def handleSubmitRun (prev : AppState) (outcome : FetchOutcome) : AppState :=
  settleFetch (pendingState prev) outcome

/-- A concrete payload shaped like the spec's worked example (gcp the
cheapest of the three providers): aws total 42, gcp total 35, azure
total 50, storage 2 each. -/
def sampleResult : ComparisonResult :=
  { results :=
      [ ("aws", { instance_type := "t3.medium", region := "us-east-1"
                , hours_running := 24, storage_gb := 50
                , compute_cost := 40, storage_cost := 2, total_cost := 42 })
      , ("gcp", { instance_type := "e2-standard-2", region := "us-central1"
                , hours_running := 24, storage_gb := 50
                , compute_cost := 33, storage_cost := 2, total_cost := 35 })
      , ("azure", { instance_type := "Standard_D2s_v3", region := "eastus"
                  , hours_running := 24, storage_gb := 50
                  , compute_cost := 48, storage_cost := 2, total_cost := 50 }) ]
  , comparison :=
      { cheapest_provider := "gcp"
      , cost_breakdown := [("aws", 42), ("gcp", 35), ("azure", 50)]
      , max_savings := 15
      , percentage_savings := 30 } }

/-- A state that has already reached Success: a result is stored and
displayed, no error, not loading. -/
def successPrev : AppState :=
  { loading := false, error := none, comparisonData := some sampleResult }

/-- C10 — Every run of the comparison submit handler terminates with the
loading flag reset to false, on a well-formed response, a non-success
HTTP status, and a network or decode exception alike, and the resulting
state is terminal: a result is present or an error is present. -/
theorem c10_loading_always_reset (prev : AppState) (outcome : FetchOutcome) :
    (handleSubmitRun prev outcome).loading = false ∧
    ((handleSubmitRun prev outcome).comparisonData ≠ none ∨
      (handleSubmitRun prev outcome).error ≠ none) := by
  cases outcome <;>
    simp [handleSubmitRun, settleFetch, pendingState]

/-- C1 counterexample — starting from a stored Success result, a fetch
that settles with a non-success HTTP status sets the error message but
does NOT clear the previously stored result: `comparisonData` still
holds the old payload, so the stale result remains displayed. -/
theorem c1_counterexample :
    (handleSubmitRun successPrev FetchOutcome.httpError).error =
      some "Failed to fetch comparison data" ∧
    (handleSubmitRun successPrev FetchOutcome.httpError).comparisonData ≠ none := by
  constructor
  · rfl
  · simp [handleSubmitRun, settleFetch, pendingState, successPrev]

/-- C1 (amended) — a fetch settling with a non-success HTTP status
leaves the state Failed with reason "Failed to fetch comparison data"
and loading reset, but the previously stored result is retained
unchanged, not cleared. -/
theorem c1_http_failure_state (prev : AppState) :
    (handleSubmitRun prev FetchOutcome.httpError).error =
      some "Failed to fetch comparison data" ∧
    (handleSubmitRun prev FetchOutcome.httpError).loading = false ∧
    (handleSubmitRun prev FetchOutcome.httpError).comparisonData =
      prev.comparisonData := by
  refine ⟨rfl, rfl, ?_⟩
  simp [handleSubmitRun, settleFetch, pendingState]

/-- C5 counterexample — re-entering Pending from a Success state clears
the prior error but does NOT clear the prior result: `comparisonData`
still holds the old payload while the new fetch is outstanding. -/
theorem c5_counterexample :
    (pendingState successPrev).error = none ∧
    (pendingState successPrev).loading = true ∧
    (pendingState successPrev).comparisonData ≠ none := by
  refine ⟨rfl, rfl, ?_⟩
  simp [pendingState, successPrev]

/-- C5 (amended) — every submit re-enters Pending clearing the prior
error and raising the loading flag, but the prior result is retained
(and hence still displayed) until the new fetch settles. -/
theorem c5_pending_keeps_result (prev : AppState) :
    (pendingState prev).loading = true ∧
    (pendingState prev).error = none ∧
    (pendingState prev).comparisonData = prev.comparisonData := by
  exact ⟨rfl, rfl, rfl⟩

/-! ### Catalog loader (`fetchInstanceTypes`, App.jsx lines 28-43) -/

/-- The three fixed provider identifiers of the loader's loop. -/
inductive Provider where
  | aws
  | gcp
  | azure
deriving DecidableEq, Repr

/-- A decoded per-provider catalog body:
`{ instance_families: { family: [instance, ...] } }`. -/
structure ProviderCatalog where
  instance_families : List (String × List String)
deriving DecidableEq, Repr

/-- How one catalog `fetch` settles: a decodable 2xx body, a non-success
HTTP status (`response.ok` false, which the loop silently skips), or a
rejected connection (the awaited promise throws). -/
inductive CatalogFetch where
  | ok (catalog : ProviderCatalog)
  | httpError
  | netError
deriving DecidableEq, Repr

/-- The `for (const provider of providers)` loop body of
`fetchInstanceTypes`: each iteration awaits the provider's fetch; a
thrown rejection aborts the whole try block (result `none`, nothing
published), a non-ok status skips the assignment, an ok response
appends `types[provider] = body`. -/
def catalogLoop (outcome : Provider → CatalogFetch) :
    List Provider → List (Provider × ProviderCatalog) →
      Option (List (Provider × ProviderCatalog))
  | [], types => some types
  | p :: rest, types =>
      match outcome p with
      | .netError => none
      | .httpError => catalogLoop outcome rest types
      | .ok catalog => catalogLoop outcome rest (types ++ [(p, catalog)])

/-- The whole of `fetchInstanceTypes`: run the loop over
`['aws', 'gcp', 'azure']` starting from `types = {}`; `some types` means
`setInstanceTypes(types)` ran, `none` means the catch block swallowed a
rejection and nothing was published. -/
def fetchInstanceTypes (outcome : Provider → CatalogFetch) :
    Option (List (Provider × ProviderCatalog)) :=
  catalogLoop outcome [Provider.aws, Provider.gcp, Provider.azure] []

/-- The `instanceTypes` state after the loader runs: published wholesale
on success of the try block, otherwise left at its initial `{}`. -/
def publishedCatalog (outcome : Provider → CatalogFetch) :
    List (Provider × ProviderCatalog) :=
  (fetchInstanceTypes outcome).getD []

/-- A small concrete catalog body for counterexamples. -/
def sampleCatalog : ProviderCatalog :=
  { instance_families := [("general_purpose", ["t3.medium", "t3.large"])] }

/-- The loader run in which gcp's fetch throws (network error) while aws
and azure would both succeed. -/
def gcpDownOutcome : Provider → CatalogFetch
  | .aws => .ok sampleCatalog
  | .gcp => .netError
  | .azure => .ok sampleCatalog

/-- What the spec's independent-retrieval contract would publish: one
entry per provider whose fetch succeeded, in loop order. Modelled from
the spec's words for comparison against `fetchInstanceTypes`. -/
def independentCatalog (outcome : Provider → CatalogFetch) :
    List (Provider × ProviderCatalog) :=
  [Provider.aws, Provider.gcp, Provider.azure].filterMap fun p =>
    match outcome p with
    | .ok catalog => some (p, catalog)
    | _ => none

/-- C3 counterexample — when gcp's catalog fetch throws, aws has already
succeeded and azure would succeed, yet the loader publishes nothing at
all: `setInstanceTypes` is never reached, the catalog stays `{}`, and in
particular azure's catalog is absent even though its retrieval was
supposed to be independent. -/
theorem c3_counterexample :
    fetchInstanceTypes gcpDownOutcome = none ∧
    publishedCatalog gcpDownOutcome = [] ∧
    gcpDownOutcome Provider.aws = CatalogFetch.ok sampleCatalog ∧
    gcpDownOutcome Provider.azure = CatalogFetch.ok sampleCatalog := by
  refine ⟨rfl, rfl, rfl, rfl⟩

/-- C3 (amended) — a non-success HTTP status on one provider's catalog
fetch does not block the others: when no fetch throws, the loader
publishes exactly one entry per successful provider, in loop order, with
failed providers absent. A thrown network error, however, aborts the
loop and nothing is published. -/
theorem c3_http_failures_independent (outcome : Provider → CatalogFetch)
    (h : ∀ p, outcome p ≠ CatalogFetch.netError) :
    fetchInstanceTypes outcome = some (independentCatalog outcome) := by
  have ha := h Provider.aws
  have hg := h Provider.gcp
  have hz := h Provider.azure
  cases hca : outcome Provider.aws <;> cases hcg : outcome Provider.gcp <;>
    cases hcz : outcome Provider.azure <;>
      simp_all [fetchInstanceTypes, catalogLoop, independentCatalog]

/-- Witness for the C3 amended theorem: aws fails with HTTP 500 while
gcp and azure succeed; only gcp and azure are published. -/
theorem c3_http_failures_independent_witness :
    fetchInstanceTypes
        (fun p => match p with
          | Provider.aws => CatalogFetch.httpError
          | _ => CatalogFetch.ok sampleCatalog) =
      some [(Provider.gcp, sampleCatalog), (Provider.azure, sampleCatalog)] := by
  have h := c3_http_failures_independent
    (fun p => match p with
      | Provider.aws => CatalogFetch.httpError
      | _ => CatalogFetch.ok sampleCatalog)
    (by intro p; cases p <;> simp)
  simpa [independentCatalog] using h

/-- Events observable in a run of the catalog loader: a provider's fetch
being issued, that fetch settling, and the final publication of the
catalog. -/
inductive LoaderEvent where
  | start (p : Provider)
  | finish (p : Provider)
  | publish
deriving DecidableEq, Repr

/-- The event trace of the `for ... await` loop: each iteration issues
its fetch and awaits it to settlement before the next iteration begins;
a thrown rejection ends the run without publication. -/
def catalogTraceLoop (outcome : Provider → CatalogFetch) :
    List Provider → List LoaderEvent
  | [] => [LoaderEvent.publish]
  | p :: rest =>
      LoaderEvent.start p :: LoaderEvent.finish p ::
        match outcome p with
        | .netError => []
        | _ => catalogTraceLoop outcome rest

/-- The event trace of a whole `fetchInstanceTypes` run. -/
def catalogTrace (outcome : Provider → CatalogFetch) : List LoaderEvent :=
  catalogTraceLoop outcome [Provider.aws, Provider.gcp, Provider.azure]

/-- An all-success loader run. -/
def allOkOutcome : Provider → CatalogFetch := fun _ => .ok sampleCatalog

/-- C4 counterexample — even when every fetch succeeds, the gcp
retrieval is issued strictly after the aws retrieval has settled (and
azure's strictly after gcp's): the retrievals are sequential, so the
second retrieval does wait on the first one's completion, contradicting
concurrent issuance. -/
theorem c4_counterexample :
    catalogTrace allOkOutcome =
      [LoaderEvent.start Provider.aws, LoaderEvent.finish Provider.aws,
       LoaderEvent.start Provider.gcp, LoaderEvent.finish Provider.gcp,
       LoaderEvent.start Provider.azure, LoaderEvent.finish Provider.azure,
       LoaderEvent.publish] ∧
    (catalogTrace allOkOutcome).indexOf (LoaderEvent.finish Provider.aws) <
      (catalogTrace allOkOutcome).indexOf (LoaderEvent.start Provider.gcp) := by
  refine ⟨rfl, by decide⟩

/-- C4 (amended) — the three catalog retrievals are issued sequentially
in the fixed order aws, gcp, azure, each starting only after the
previous one has settled; when none throws, the catalog is published
atomically once, after all three have settled. -/
theorem c4_sequential_trace (outcome : Provider → CatalogFetch)
    (h : ∀ p, outcome p ≠ CatalogFetch.netError) :
    catalogTrace outcome =
      [LoaderEvent.start Provider.aws, LoaderEvent.finish Provider.aws,
       LoaderEvent.start Provider.gcp, LoaderEvent.finish Provider.gcp,
       LoaderEvent.start Provider.azure, LoaderEvent.finish Provider.azure,
       LoaderEvent.publish] := by
  have ha := h Provider.aws
  have hg := h Provider.gcp
  have hz := h Provider.azure
  cases hca : outcome Provider.aws <;> cases hcg : outcome Provider.gcp <;>
    cases hcz : outcome Provider.azure <;>
      simp_all [catalogTrace, catalogTraceLoop]

/-- Witness for the C4 amended theorem at the all-success run. -/
theorem c4_sequential_trace_witness :
    catalogTrace allOkOutcome =
      [LoaderEvent.start Provider.aws, LoaderEvent.finish Provider.aws,
       LoaderEvent.start Provider.gcp, LoaderEvent.finish Provider.gcp,
       LoaderEvent.start Provider.azure, LoaderEvent.finish Provider.azure,
       LoaderEvent.publish] :=
  c4_sequential_trace allOkOutcome (by intro p; cases p <;> simp [allOkOutcome])

/-! ### Derivation module (`formatChartData` / `formatPieData` /
winner highlight, App.jsx lines 85-105 and 467) -/

/-- One record of the chart series produced by `formatChartData`.
The JS record key for the instance identifier is `instance`; it is
spelled `instance_type` here because `instance` is a Lean keyword. -/
structure ChartRecord where
  provider : String
  compute : Rat
  storage : Rat
  total : Rat
  instance_type : String
deriving DecidableEq, Repr

/-- One record of the share series produced by `formatPieData`.
`color` is an `Option` because the JS `COLORS[i]` is `undefined` when
the index falls outside the palette. -/
structure PieRecord where
  name : String
  value : Rat
  color : Option String
deriving DecidableEq, Repr

/-- The fixed four-color palette (App.jsx line 22). -/
def COLORS : List String := ["#3B82F6", "#10B981", "#F59E0B", "#EF4444"]

/-- The `provider.toUpperCase()` of the derivation helpers, modelled as
a character-wise ASCII uppercase map over the string's characters. -/
def toUpperString (s : String) : String :=
  ⟨s.data.map Char.toUpper⟩

/-- `formatChartData` (App.jsx lines 85-95): `[]` when no comparison
data, otherwise one record per entry of `results` in insertion order. -/
def formatChartData : Option ComparisonResult → List ChartRecord
  | none => []
  | some r =>
      r.results.map fun e =>
        { provider := toUpperString e.1
        , compute := e.2.compute_cost
        , storage := e.2.storage_cost
        , total := e.2.total_cost
        , instance_type := e.2.instance_type }

/-- `Object.keys(results).indexOf(provider)` (App.jsx line 103). -/
def keyIndex (p : String) (results : List (String × ProviderCost)) : Nat :=
  (results.map Prod.fst).indexOf p

/-- `formatPieData` (App.jsx lines 97-105): `[]` when no comparison
data, otherwise one `{name, value, color}` record per entry of
`results` in insertion order, the color looked up in `COLORS` at the
provider's position among the result's keys. -/
def formatPieData : Option ComparisonResult → List PieRecord
  | none => []
  | some r =>
      r.results.map fun e =>
        { name := toUpperString e.1
        , value := e.2.total_cost
        , color := COLORS.get? (keyIndex e.1 r.results) }

/-- The winner highlight (App.jsx line 467):
`provider === comparisonData.comparison.cheapest_provider`. -/
def isWinner (r : ComparisonResult) (p : String) : Bool :=
  p == r.comparison.cheapest_provider

/-- Tail of the first-minimum scan: keeps the current best unless a
strictly cheaper entry appears later, so ties keep the earlier key. -/
def argminGo (best : String × ProviderCost) :
    List (String × ProviderCost) → String
  | [] => best.1
  | e :: rest =>
      if e.2.total_cost < best.2.total_cost then argminGo e rest
      else argminGo best rest

/-- Modelled from the spec: the key of the entry with minimum
`total_cost` over the result map, ties resolved to the first key in
iteration order (spec sections 4.4 and 8); `none` on an empty map. -/
def argminFirst : List (String × ProviderCost) → Option String
  | [] => none
  | e :: rest => some (argminGo e rest)

/-- The spec's well-formedness invariant on a comparison payload: its
`cheapest_provider` field is the first-in-order minimizer of
`total_cost` over the `results` map. -/
@[reducible] def wellFormedResult (r : ComparisonResult) : Prop :=
  argminFirst r.results = some r.comparison.cheapest_provider

/-- The key returned by `argminGo` belongs to `best :: rest` and its
entry's total cost is minimal there. -/
theorem argminGo_min (best : String × ProviderCost)
    (rest : List (String × ProviderCost)) :
    ∃ c, (argminGo best rest, c) ∈ best :: rest ∧
      c.total_cost ≤ best.2.total_cost ∧
      ∀ q ∈ rest, c.total_cost ≤ q.2.total_cost := by
  induction rest generalizing best with
  | nil => exact ⟨best.2, by simp [argminGo], le_refl _, by simp⟩
  | cons e rest ih =>
      by_cases hlt : e.2.total_cost < best.2.total_cost
      · obtain ⟨c, hmem, hle, hall⟩ := ih e
        rw [List.mem_cons] at hmem
        refine ⟨c, ?_, ?_, ?_⟩
        · simp only [argminGo, if_pos hlt, List.mem_cons]
          rcases hmem with h | h
          · exact Or.inr (Or.inl h)
          · exact Or.inr (Or.inr h)
        · exact le_trans hle (le_of_lt hlt)
        · intro q hq
          rw [List.mem_cons] at hq
          rcases hq with h | h
          · exact h ▸ hle
          · exact hall q h
      · obtain ⟨c, hmem, hle, hall⟩ := ih best
        rw [List.mem_cons] at hmem
        refine ⟨c, ?_, hle, ?_⟩
        · simp only [argminGo, if_neg hlt, List.mem_cons]
          rcases hmem with h | h
          · exact Or.inl h
          · exact Or.inr (Or.inr h)
        · intro q hq
          rw [List.mem_cons] at hq
          rcases hq with h | h
          · exact h ▸ le_trans hle (not_lt.mp hlt)
          · exact hall q h

/-- The key returned by `argminFirst` has an entry of minimal total
cost in the result list. -/
theorem argminFirst_min (results : List (String × ProviderCost))
    (p : String) (h : argminFirst results = some p) :
    ∃ c, (p, c) ∈ results ∧
      ∀ q ∈ results, c.total_cost ≤ q.2.total_cost := by
  cases results with
  | nil => simp [argminFirst] at h
  | cons e rest =>
      simp only [argminFirst, Option.some.injEq] at h
      obtain ⟨c, hmem, hle, hall⟩ := argminGo_min e rest
      refine ⟨c, h ▸ hmem, ?_⟩
      intro q hq
      rw [List.mem_cons] at hq
      rcases hq with hq | hq
      · exact hq ▸ hle
      · exact hall q hq

/-- C2 — for every well-formed comparison payload, a provider is
highlighted as the winner exactly when it is the first-in-order
minimizer of `total_cost` over the result map; and that minimizer's
entry indeed has minimal total cost among all entries. -/
theorem c2_winner_is_argmin (r : ComparisonResult) (hw : wellFormedResult r) :
    (∀ p : String, isWinner r p = true ↔ argminFirst r.results = some p) ∧
    (∀ p, argminFirst r.results = some p →
      ∃ c, (p, c) ∈ r.results ∧
        ∀ q ∈ r.results, c.total_cost ≤ q.2.total_cost) := by
  constructor
  · intro p
    have hw2 : argminFirst r.results = some r.comparison.cheapest_provider := hw
    have hbe : isWinner r p = true ↔ p = r.comparison.cheapest_provider := by
      simp [isWinner]
    rw [hbe, hw2, Option.some.injEq, eq_comm]
  · intro p hp
    exact argminFirst_min r.results p hp

/-- Witness for C2 at the concrete payload: gcp (total 35, the minimum)
is both the highlighted winner and the first-in-order minimizer. -/
theorem c2_winner_is_argmin_witness : isWinner sampleResult "gcp" = true :=
  ((c2_winner_is_argmin sampleResult (by decide)).1 "gcp").mpr (by decide)

/-- C6 — the chart series of a present payload has exactly one record
per provider of the result map, in the map's order, carrying the
uppercase label, compute cost, storage cost, total cost and instance
type of that provider's entry; three providers yield three records. -/
theorem c6_chart_series (r : ComparisonResult) :
    (formatChartData (some r)).length = r.results.length ∧
    (∀ i (h : i < r.results.length),
      (formatChartData (some r)).get ⟨i, by simpa [formatChartData] using h⟩ =
        { provider := toUpperString (r.results.get ⟨i, h⟩).1
        , compute := (r.results.get ⟨i, h⟩).2.compute_cost
        , storage := (r.results.get ⟨i, h⟩).2.storage_cost
        , total := (r.results.get ⟨i, h⟩).2.total_cost
        , instance_type := (r.results.get ⟨i, h⟩).2.instance_type }) ∧
    (r.results.length = 3 → (formatChartData (some r)).length = 3) := by
  refine ⟨by simp [formatChartData], ?_, by simp [formatChartData]⟩
  intro i h
  simp [formatChartData]

/-- Witness for C6 at the spec's worked example: three records, the
first being aws's. -/
theorem c6_chart_series_witness :
    (formatChartData (some sampleResult)).length = 3 ∧
    (formatChartData (some sampleResult)).get ⟨0, by decide⟩ =
      { provider := "AWS", compute := 40, storage := 2, total := 42
      , instance_type := "t3.medium" } := by
  have h := c6_chart_series sampleResult
  refine ⟨h.2.2 (by decide), ?_⟩
  have h0 := h.2.1 0 (by decide)
  exact h0.trans (by decide)

/-- C7 — for a payload whose result map has no duplicate keys (as a JS
object guarantees), the share series has one record per provider in map
order, carrying the uppercase label, that provider's total cost, and
the palette color at the provider's position among the keys; and the
series is stable across calls on the same payload. -/
theorem c7_share_series (r : ComparisonResult)
    (hnd : (r.results.map Prod.fst).Nodup) :
    (∀ i (h : i < r.results.length),
      (formatPieData (some r)).get ⟨i, by simpa [formatPieData] using h⟩ =
        { name := toUpperString (r.results.get ⟨i, h⟩).1
        , value := (r.results.get ⟨i, h⟩).2.total_cost
        , color := COLORS.get? i }) ∧
    formatPieData (some r) = formatPieData (some r) := by
  refine ⟨?_, rfl⟩
  intro i h
  have hm : i < (r.results.map Prod.fst).length := by simpa using h
  have hk := List.indexOf_getElem hnd i hm
  simp only [List.getElem_map] at hk
  simp [formatPieData, keyIndex, hk]

/-- Witness for C7 at the concrete payload: the second record is gcp's,
colored with the second palette entry. -/
theorem c7_share_series_witness :
    (formatPieData (some sampleResult)).get ⟨1, by decide⟩ =
      { name := "GCP", value := 35, color := some "#10B981" } := by
  have h := (c7_share_series sampleResult (by decide)).1 1 (by decide)
  exact h.trans (by decide)

/-- Both derivation helpers applied to the same payload. -/
def deriveAll (d : Option ComparisonResult) :
    List ChartRecord × List PieRecord :=
  (formatChartData d, formatPieData d)

/-- Two successive invocations of the derivation module on the same
payload, as a pair of observations. -/
def deriveTwice (d : Option ComparisonResult) :
    (List ChartRecord × List PieRecord) × (List ChartRecord × List PieRecord) :=
  (deriveAll d, deriveAll d)

/-- C9 — the derivation module is a pure function of the payload:
invoking it twice on the same payload yields identical chart and share
series, and equal payloads yield equal series. -/
theorem c9_derivation_idempotent (d : Option ComparisonResult) :
    (deriveTwice d).1 = (deriveTwice d).2 ∧ deriveAll d = deriveAll d :=
  ⟨rfl, rfl⟩

/-! ### Submit mutual exclusion (App.jsx lines 300-303 and 55) -/

/-- The `disabled={loading}` attribute of the submit button
(App.jsx line 302). -/
def submitDisabled (s : AppState) : Bool :=
  s.loading

/-- The two external events that drive the request lifecycle: the user
pressing the submit control, and the single in-flight fetch settling
with some outcome. -/
inductive UiEvent where
  | submit
  | settled (outcome : FetchOutcome)
deriving DecidableEq, Repr

/-- One step of the request lifecycle. A submit can only fire when the
control is enabled (the browser does not deliver submit events from a
disabled button), and it runs the synchronous prefix of `handleSubmit`;
a settle event can only arrive while a fetch is outstanding, and it runs
the rest of `handleSubmit`. `none` means the event cannot occur in the
given state. -/
def uiStep (s : AppState) : UiEvent → Option AppState
  | .submit => if submitDisabled s then none else some (pendingState s)
  | .settled outcome => if s.loading then some (settleFetch s outcome) else none

/-- C8 — while a request is pending the submit control is disabled and
no submit event can fire; an accepted submit starts from a non-loading
state and raises the loading flag; and a settling fetch always lowers
it. Hence at most one comparison fetch is in flight at any time and no
second pending period can begin before the current one reaches a
terminal state. -/
theorem c8_submit_mutex (s : AppState) :
    (s.loading = true →
      submitDisabled s = true ∧ uiStep s UiEvent.submit = none) ∧
    (∀ s', uiStep s UiEvent.submit = some s' →
      s.loading = false ∧ s'.loading = true) ∧
    (∀ outcome s', uiStep s (UiEvent.settled outcome) = some s' →
      s'.loading = false) := by
  refine ⟨?_, ?_, ?_⟩
  · intro h
    exact ⟨h, by simp [uiStep, submitDisabled, h]⟩
  · intro s' hs
    by_cases h : s.loading
    · simp [uiStep, submitDisabled, h] at hs
    · simp only [uiStep, submitDisabled, h, if_neg, Bool.false_eq_true,
        not_false_eq_true, if_false, Option.some.injEq] at hs
      refine ⟨by simp [h], ?_⟩
      rw [← hs]
      rfl
  · intro outcome s' hs
    by_cases h : s.loading
    · simp only [uiStep, h, if_pos, Option.some.injEq] at hs
      rw [← hs]
      cases outcome <;> rfl
    · simp [uiStep, h] at hs

/-- Witness for C8 at a concrete pending state: the submit control is
disabled and the submit event is rejected. -/
theorem c8_submit_mutex_witness :
    submitDisabled (pendingState successPrev) = true ∧
    uiStep (pendingState successPrev) UiEvent.submit = none :=
  (c8_submit_mutex (pendingState successPrev)).1 rfl

end CloudTco
